import Mathlib

/-!
Verification development for the OpenAuthster issuer core: tenant resolution,
login-success upsert, invite gating, secret checking, session-document merge,
admin pagination and the error boundary, modelled as pure functions over
explicit table states.
-/

set_option autoImplicit false

namespace OpenAuthster

/-- A small JSON scalar value, enough for the profile / session documents the
properties talk about. -/
inductive JVal where
  | vStr (s : String)
  | vNum (n : Int)
  | vBool (b : Bool)
  | vNull
  deriving Repr, DecidableEq

/-- A JSON object, modelled as an association list of top-level keys. -/
abbrev Doc := List (String × JVal)

/-- A JSON value that is either `null` (`none`) or an object. -/
abbrev Jso := Option Doc

/-- Key lookup in a JS object: the first binding for the key. -/
def jsLookup {α : Type} (o : List (String × α)) (k : String) : Option α :=
  (o.find? (fun kv => kv.1 == k)).map (fun kv => kv.2)

/-- JS truthiness of a string-or-undefined value: `none` and `""` are falsy. -/
def jsTruthyStr : Option String → Bool
  | none => false
  | some s => s != ""

/-- `a || b` for JS string-or-undefined values. -/
def jsOrStr (a b : Option String) : Option String :=
  if jsTruthyStr a then a else b

/-- `a` if `a` is `some`, else `b` (option fallback used to state lookup laws). -/
def jsOr {α : Type} (a b : Option α) : Option α :=
  match a with
  | some v => some v
  | none => b

/-- The JS object spread `{...a, ...b}`: keys of `a` keep their position but take
`b`'s value when `b` also binds them; keys only in `b` are appended. -/
def objSpread {α : Type} (a b : List (String × α)) : List (String × α) :=
  (a.map fun kv =>
    match jsLookup b kv.1 with
    | some v => (kv.1, v)
    | none => kv)
  ++ b.filter (fun kv => (jsLookup a kv.1).isNone)

theorem jsLookup_nil {α : Type} (k : String) :
    jsLookup ([] : List (String × α)) k = none := rfl

theorem jsLookup_cons {α : Type} (p : String × α) (l : List (String × α)) (k : String) :
    jsLookup (p :: l) k = if p.1 == k then some p.2 else jsLookup l k := by
  simp only [jsLookup, List.find?]
  cases h : p.1 == k <;> simp [h]

theorem jsLookup_append {α : Type} (x y : List (String × α)) (k : String) :
    jsLookup (x ++ y) k = jsOr (jsLookup x k) (jsLookup y k) := by
  induction x with
  | nil => simp [jsLookup_nil, jsOr]
  | cons p x ih =>
    rw [List.cons_append, jsLookup_cons, jsLookup_cons]
    cases h : p.1 == k
    · simpa [h] using ih
    · simp [h, jsOr]

theorem jsLookup_spreadMap {α : Type} (a b : List (String × α)) (k : String) :
    jsLookup (a.map fun kv =>
      match jsLookup b kv.1 with
      | some v => (kv.1, v)
      | none => kv) k
    = match jsLookup a k with
      | none => none
      | some w =>
        match jsLookup b k with
        | some v => some v
        | none => some w := by
  induction a with
  | nil => simp [jsLookup_nil]
  | cons p a ih =>
    rw [List.map_cons, jsLookup_cons]
    by_cases hpk : p.1 = k
    · subst hpk
      cases hb : jsLookup b p.1 <;>
        simp [jsLookup_cons, hb]
    · have h1 : (p.1 == k) = false := by simp [hpk]
      cases hb : jsLookup b p.1 <;>
        simp [jsLookup_cons, h1, ih]

theorem jsLookup_filter_keep {α : Type} (l : List (String × α))
    (p : String × α → Bool) (k : String)
    (h : ∀ kv, kv.1 = k → p kv = true) :
    jsLookup (l.filter p) k = jsLookup l k := by
  induction l with
  | nil => simp
  | cons q l ih =>
    by_cases hqk : q.1 = k
    · have : p q = true := h q hqk
      rw [List.filter_cons, if_pos this, jsLookup_cons, jsLookup_cons]
      simp [hqk, ih]
    · have hqk' : (q.1 == k) = false := by simp [hqk]
      rw [List.filter_cons]
      cases hp : p q
      · simp [jsLookup_cons, hqk, ih]
      · rw [if_pos rfl, jsLookup_cons, jsLookup_cons, if_neg (by simp [hqk]), if_neg (by simp [hqk])]
        exact ih

theorem jsLookup_filter_drop {α : Type} (l : List (String × α))
    (p : String × α → Bool) (k : String)
    (h : ∀ kv, kv.1 = k → p kv = false) :
    jsLookup (l.filter p) k = none := by
  induction l with
  | nil => simp [jsLookup_nil]
  | cons q l ih =>
    rw [List.filter_cons]
    by_cases hqk : q.1 = k
    · rw [h q hqk]
      simpa using ih
    · cases hp : p q
      · simpa using ih
      · rw [if_pos rfl, jsLookup_cons, if_neg (by simp [hqk])]
        exact ih

/-- Lookup law for the spread: the right operand wins, the left is the fallback. -/
theorem jsLookup_objSpread {α : Type} (a b : List (String × α)) (k : String) :
    jsLookup (objSpread a b) k = jsOr (jsLookup b k) (jsLookup a k) := by
  rw [objSpread, jsLookup_append, jsLookup_spreadMap]
  cases ha : jsLookup a k with
  | some w =>
    cases hb : jsLookup b k <;> simp [jsOr]
  | none =>
    have hkeep : jsLookup (b.filter fun kv => (jsLookup a kv.1).isNone) k = jsLookup b k := by
      apply jsLookup_filter_keep
      intro kv hkv
      rw [hkv, ha]
      rfl
    cases hb : jsLookup b k <;> simp [jsOr, hkeep, hb]

/-! ## Tenant-scoped user table and invite-link table -/

/-- One row of a tenant's `OTFusersTable`.  `session_public` / `session_private`
are nullable TEXT columns holding JSON; the outer `Option` is SQL `NULL`, the
inner `Jso` is the parsed JSON value (an object or JSON `null`). -/
structure UserRow where
  id : String
  identifier : String
  data : Doc
  session_public : Option Jso
  session_private : Option Jso
  created_at : String
  deriving Repr, DecidableEq

/-- One row of `WebUiInviteLinkTable`.  `expiresAt` is a timestamp column;
`none` models a falsy (empty) value, `some t` a parseable time in ms. -/
structure InviteRow where
  id : String
  clientID : String
  expiresAt : Option Nat
  deriving Repr, DecidableEq

/-- `userExists` from `d1-adapter.ts`: SELECT .. WHERE identifier = ? LIMIT 1. -/
def userExists (users : List UserRow) (identifier : String) : Bool :=
  (users.find? (fun r => r.identifier == identifier)).isSome

/-- The drizzle upsert in `getOrCreateUser`: INSERT a fresh row, ON CONFLICT on
`identifier` update only `data`, RETURNING `id`.  Returns the new table and the
returned id (the existing row's id on conflict, the fresh id otherwise). -/
def upsertUserRow (users : List UserRow) (freshId createdAt identifier : String)
    (d : Doc) : List UserRow × String :=
  match users.find? (fun r => r.identifier == identifier) with
  | some row =>
    (users.map (fun r => if r.identifier == identifier then { r with data := d } else r),
     row.id)
  | none =>
    (users ++ [{ id := freshId, identifier := identifier, data := d,
                 session_public := none, session_private := none,
                 created_at := createdAt }],
     freshId)

/-- `{ ...userData.data, provider: value.provider }` from `getOrCreateUser`. -/
def dataToStore (userData : Doc) (provider : String) : Doc :=
  objSpread userData [("provider", JVal.vStr provider)]

/-! ## Invite links (`invite-link.ts`) -/

inductive InviteErr where
  | notFound
  | expired
  deriving Repr, DecidableEq

/-- `removeInviteLinkById`: DELETE FROM invite links WHERE id = ?. -/
def removeInviteLinkById (invites : List InviteRow) (id : String) : List InviteRow :=
  invites.filter (fun r => r.id != id)

/-- `ensureInviteLinkIsValid`: look the link up by id; missing link is an error,
an expired link is deleted and then an error.  The second component is the
invite table after the call (it changes in the expired case). -/
def ensureInviteLinkIsValid (invites : List InviteRow) (id : String) (now : Nat) :
    Except InviteErr Unit × List InviteRow :=
  match invites.find? (fun r => r.id == id) with
  | none => (Except.error InviteErr.notFound, invites)
  | some link =>
    match link.expiresAt with
    | some t =>
      if t < now then (Except.error InviteErr.expired, removeInviteLinkById invites id)
      else (Except.ok (), invites)
    | none => (Except.ok (), invites)

/-! ## The login-success path (`getOrCreateUser`) -/

/-- State of one tenant's durable tables touched by the login-success path. -/
structure TenantState where
  users : List UserRow
  invites : List InviteRow
  deriving Repr, DecidableEq

/-- The non-deterministic inputs of one `getOrCreateUser` call: the tenant's
invite policy, the request's invite id, the provider-extracted identity, and
the generated id / timestamp / clock. -/
structure LoginInput where
  registerOnInvite : Bool
  inviteID : Option String
  identifier : String
  userData : Doc
  provider : String
  freshId : String
  createdAt : String
  now : Nat
  deriving Repr, DecidableEq

/-- How `getOrCreateUser` rejects a login. -/
inductive AuthErr where
  /-- `throw new Error("Invite ID is required for registration on invite")`:
  a plain `Error`, not a `RequestError`. -/
  | missingInviteId
  /-- `throw new RequestError("Invalid invite link: ...", 401)`. -/
  | invalidInvite (e : InviteErr)
  deriving Repr, DecidableEq

/-- Whether the thrown value is a `RequestError` (carrying an HTTP status). -/
def AuthErr.isRequestError : AuthErr → Bool
  | AuthErr.missingInviteId => false
  | AuthErr.invalidInvite _ => true

/-- The HTTP status of the response `_fetch` produces for the thrown error:
`RequestError`s keep their status (401 here), anything else degrades to a
generic 500. -/
def AuthErr.responseStatus : AuthErr → Nat
  | AuthErr.missingInviteId => 500
  | AuthErr.invalidInvite _ => 401

namespace IndexTs

/-- `getOrCreateUser` from `src/index.ts`: when the tenant registers on invite,
require an invite id and validate it (the validation may delete an expired
link); then upsert the user keyed by identifier with the provider-tagged data;
then delete the invite link by the request's invite id (a DELETE whose WHERE is
`id = null` when no invite id is present, matching no row). -/
def getOrCreateUser (st : TenantState) (inp : LoginInput) :
    Except AuthErr String × TenantState :=
  match (if inp.registerOnInvite then
           match inp.inviteID with
           | none => Except.error (AuthErr.missingInviteId, st.invites)
           | some iid =>
             match ensureInviteLinkIsValid st.invites iid inp.now with
             | (Except.error e, invites1) =>
               Except.error (AuthErr.invalidInvite e, invites1)
             | (Except.ok _, invites1) => Except.ok invites1
         else Except.ok st.invites : Except (AuthErr × List InviteRow) (List InviteRow)) with
  | Except.error (e, invites1) => (Except.error e, { st with invites := invites1 })
  | Except.ok invites1 =>
    let upserted := upsertUserRow st.users inp.freshId inp.createdAt inp.identifier
      (dataToStore inp.userData inp.provider)
    let invites2 := match inp.inviteID with
      | some iid => removeInviteLinkById invites1 iid
      | none => invites1
    (Except.ok upserted.2, { users := upserted.1, invites := invites2 })

end IndexTs

namespace D1Adapter

/-- `getOrCreateUser` from `src/db/d1-adapter.ts`: identical to the `index.ts`
variant except that the invite gate additionally checks
`!(await userExists(env, userData.identifier, project.clientID))`, so
already-registered identifiers skip invite validation entirely. -/
def getOrCreateUser (st : TenantState) (inp : LoginInput) :
    Except AuthErr String × TenantState :=
  match (if inp.registerOnInvite && !(userExists st.users inp.identifier) then
           match inp.inviteID with
           | none => Except.error (AuthErr.missingInviteId, st.invites)
           | some iid =>
             match ensureInviteLinkIsValid st.invites iid inp.now with
             | (Except.error e, invites1) =>
               Except.error (AuthErr.invalidInvite e, invites1)
             | (Except.ok _, invites1) => Except.ok invites1
         else Except.ok st.invites : Except (AuthErr × List InviteRow) (List InviteRow)) with
  | Except.error (e, invites1) => (Except.error e, { st with invites := invites1 })
  | Except.ok invites1 =>
    let upserted := upsertUserRow st.users inp.freshId inp.createdAt inp.identifier
      (dataToStore inp.userData inp.provider)
    let invites2 := match inp.inviteID with
      | some iid => removeInviteLinkById invites1 iid
      | none => invites1
    (Except.ok upserted.2, { users := upserted.1, invites := invites2 })

end D1Adapter

/-! ## Session documents (`updateUserPublicData` / `updateUserPrivateData`) -/

/-- `el.public ? JSON.parse(el.public) : null`: a SQL `NULL` column reads as
JSON `null`; a stored JSON text (possibly the text `"null"`) parses back. -/
def parseStoredJson : Option Jso → Jso
  | none => none
  | some j => j

/-- `updateUserPublicData` from `d1-adapter.ts`: read the user's current public
session document ("User not found" → `none`), build
`skipMerge ? newData : { ...(current || \x7b\x7d), ...newData }`, store it as the new
`session_public`, and return the updated table together with the stored
document (the `RETURNING` readback). -/
def updateUserPublicData (users : List UserRow) (userID : String)
    (newData : Jso) (skipMerge : Bool) : Option (List UserRow × Jso) :=
  match users.find? (fun r => r.id == userID) with
  | none => none
  | some row =>
    let current : Jso := parseStoredJson row.session_public
    let merged : Jso :=
      if skipMerge then newData
      else some (objSpread (current.getD []) (newData.getD []))
    some
      (users.map (fun r =>
         if r.id == userID then { r with session_public := some merged } else r),
       merged)

/-- `updateUserPrivateData` from `d1-adapter.ts`: same shape on the
`session_private` column (the merge base is `{ ...current, ...newData }`, and a
spread of JSON `null` contributes no keys). -/
def updateUserPrivateData (users : List UserRow) (userID : String)
    (newData : Jso) (skipMerge : Bool) : Option (List UserRow × Jso) :=
  match users.find? (fun r => r.id == userID) with
  | none => none
  | some row =>
    let current : Jso := parseStoredJson row.session_private
    let merged : Jso :=
      if skipMerge then newData
      else some (objSpread (current.getD []) (newData.getD []))
    some
      (users.map (fun r =>
         if r.id == userID then { r with session_private := some merged } else r),
       merged)

/-! ## Shared-secret check (`ensureSecret`) -/

/-- One row of `projectTable`, restricted to the columns `ensureSecret` uses. -/
structure ProjectRow where
  clientID : String
  secret : String
  deriving Repr, DecidableEq

inductive SecretErr where
  /-- `PartialRequestError("Unauthorized: Missing secret", 401)`. -/
  | missingSecret
  /-- `PartialRequestError("Unauthorized: Invalid secret", 401)`. -/
  | invalidSecret
  deriving Repr, DecidableEq

/-- Both secret-check rejections carry HTTP status 401. -/
def SecretErr.status : SecretErr → Nat
  | SecretErr.missingSecret => 401
  | SecretErr.invalidSecret => 401

/-- `ensureSecret` from `d1-adapter.ts`: `if (!secret) throw Missing` (the
empty string is falsy), then SELECT secret FROM projects WHERE clientID = ?
AND secret = ?; no row → Invalid, a row → return its secret. -/
def ensureSecret (secret : Option String) (projectID : String)
    (projects : List ProjectRow) : Except SecretErr String :=
  match secret with
  | none => Except.error SecretErr.missingSecret
  | some s =>
    if s == "" then Except.error SecretErr.missingSecret
    else
      match projects.find? (fun p => p.clientID == projectID && p.secret == s) with
      | none => Except.error SecretErr.invalidSecret
      | some p => Except.ok p.secret

/-! ## Provider identity extraction (`providers-setup.ts`) -/

inductive ExtractErr where
  /-- "OIDC provider did not return a sub claim in the ID token, ...". -/
  | missingSub
  deriving Repr, DecidableEq

/-- The decoded ID token the OIDC builder's parser receives (`data.id`). -/
structure OidcIdToken where
  sub : Option String
  claims : Doc
  deriving Repr, DecidableEq

/-- `oidcConfigBuilder.parser`: `if (!data.id.sub) throw ...` then
`identifier = data.id.sub`, `data = data.id`. -/
def oidcParser (id : OidcIdToken) : Except ExtractErr (String × OidcIdToken) :=
  match id.sub with
  | none => Except.error ExtractErr.missingSub
  | some s =>
    if s == "" then Except.error ExtractErr.missingSub
    else Except.ok (s, id)

/-- The Slack `openid.connect.userInfo` response, restricted to the fields the
parser touches (the remaining fields ride along in real payloads). -/
structure SlackUserInfo where
  sub : Option String
  email : Option String
  name : Option String
  deriving Repr, DecidableEq

/-- `slackBuilder.parser`: `identifier: info.sub || info.email!` — no check at
all, the identifier silently falls back to the email when `sub` is falsy. -/
def slackParser (info : SlackUserInfo) : Option String × SlackUserInfo :=
  (if jsTruthyStr info.sub then info.sub else info.email, info)

/-- The Cognito `oauth2/userInfo` response, restricted to the fields the
parser touches. -/
structure CognitoUserInfo where
  sub : Option String
  email : Option String
  username : Option String
  deriving Repr, DecidableEq

/-- `cognitoBuilder.parser`: `identifier: info.sub || info.email!` — same
silent fallback as Slack. -/
def cognitoParser (info : CognitoUserInfo) : Option String × CognitoUserInfo :=
  (if jsTruthyStr info.sub then info.sub else info.email, info)

/-! ## JS string primitives

`String.trim` / `split` / `endsWith` are modelled over character lists so that
concrete instances evaluate inside the kernel. -/

/-- The whitespace characters JS `trim` strips (the ASCII ones that occur in
headers and form fields). -/
def isJsWhitespace (c : Char) : Bool :=
  c == ' ' || c == '\t' || c == '\n' || c == '\r'

/-- JS `String.prototype.trim`. -/
def jsTrim (s : String) : String :=
  String.mk (((s.data.dropWhile isJsWhitespace).reverse.dropWhile
    isJsWhitespace).reverse)

/-- Worker for `jsSplit`; the fuel only makes the recursion structural and is
always sufficient at the call site. -/
def jsSplitCore (sep : List Char) (fuel : Nat) (acc : List Char)
    (l : List Char) : List (List Char) :=
  match fuel, l with
  | _, [] => [acc.reverse]
  | 0, l => [acc.reverse ++ l]
  | Nat.succ n, c :: rest =>
    if sep.isPrefixOf (c :: rest) then
      acc.reverse :: jsSplitCore sep n [] (List.drop sep.length (c :: rest))
    else jsSplitCore sep n (c :: acc) rest

/-- JS `String.prototype.split` with a non-empty separator. -/
def jsSplit (s sep : String) : List String :=
  (jsSplitCore sep.data (s.data.length + 1) [] s.data).map String.mk

/-- JS `String.prototype.endsWith`. -/
def jsEndsWith (s suffix : String) : Bool :=
  suffix.data.isSuffixOf s.data

/-! ## Admin user list (`fetchUserList`) -/

/-- `fetchUserList` from `d1-adapter.ts`: `if (filters.limit)` (so a limit of 0
is falsy and means full scan) paginate with LIMIT `limit` OFFSET
`(page - 1) * limit`, else SELECT all.  SQLite clamps a negative OFFSET to 0
(`Int.toNat`); when `limit` is set but `page` absent the JS offset is `NaN`
and the query has no defined result (`none`). -/
def fetchUserList (users : List UserRow) (limit? page? : Option Nat) :
    Option (List UserRow) :=
  match limit? with
  | some l =>
    if l != 0 then
      match page? with
      | some page => some ((users.drop (((page : Int) - 1) * (l : Int)).toNat).take l)
      | none => none
    else some users
  | none => some users

/-! ## Request params (`RequestManager.requestToParams`, `index.ts`) -/

/-- `COOKIE_NAME` from the shared types. -/
def COOKIE_NAME : String := "oauth_client_id"

/-- `COOKIE_COPY_TEMPLATE_ID` from the shared types. -/
def COOKIE_COPY_TEMPLATE_ID : String := "oauth_copy_template_id"

/-- Modelled from the spec: `COOKIE_INVITE_ID` is a cookie-name constant that
lives in the external `openauth-webui-shared-types` package (not under this
repository's sources); only its distinctness from the other two names matters
here. -/
def COOKIE_INVITE_ID : String := "oauth_invite_id"

/-- `getCookiesFromRequest`: split the Cookie header on `;`, trim each pair,
split on `=`; the name is the first segment and the value the second (absent
for a pair without `=`).  Later pairs overwrite earlier ones. -/
def getCookiesFromRequest (cookieHeader : Option String) :
    List (String × Option String) :=
  match cookieHeader with
  | none => []
  | some h =>
    (jsSplit h ";").map (fun pair =>
      let parts := jsSplit (jsTrim pair) "="
      (parts.headD "", parts[1]?))

/-- JS record lookup on the parsed cookie object: last assignment wins; an
unassigned name and a pair without `=` both read as `undefined`. -/
def cookieGet (cookies : List (String × Option String)) (k : String) :
    Option String :=
  match cookies.reverse.find? (fun kv => kv.1 == k) with
  | some kv => kv.2
  | none => none

/-- The resolved request context. -/
structure Params where
  clientID : Option String
  copyID : Option String
  inviteID : Option String
  deriving Repr, DecidableEq

/-- The request fields `requestToParams` reads. -/
structure RequestInput where
  method : String
  queryClientId : Option String
  queryInviteId : Option String
  formClientId : Option String
  cookieHeader : Option String
  deriving Repr, DecidableEq

/-- `RequestManager.requestToParams` from `index.ts`: the `client_id` query
parameter and (for POST only) form field are split on `::` into a client part
and a copy part; each of the three context fields falls back through
query → form → cookie → null under JS truthiness. -/
def requestToParams (req : RequestInput) : Params :=
  let cookies := getCookiesFromRequest req.cookieHeader
  let clientIDParams : Option (List String) :=
    req.queryClientId.map (fun s => jsSplit s "::")
  let clientIDParamsForm : Option (List String) :=
    if req.method == "POST" then req.formClientId.map (fun s => jsSplit s "::")
    else none
  { clientID :=
      jsOrStr (clientIDParams.bind (fun l => l[0]?))
        (jsOrStr (clientIDParamsForm.bind (fun l => l[0]?))
          (jsOrStr (cookieGet cookies COOKIE_NAME) none)),
    copyID :=
      jsOrStr (clientIDParams.bind (fun l => l[1]?))
        (jsOrStr (clientIDParamsForm.bind (fun l => l[1]?))
          (jsOrStr (cookieGet cookies COOKIE_COPY_TEMPLATE_ID) none)),
    inviteID :=
      jsOrStr req.queryInviteId
        (jsOrStr (cookieGet cookies COOKIE_INVITE_ID) none) }

/-! ## The `_fetch` error boundary (`index.ts`) -/

/-- The tenant fields the response-preparation path uses. -/
structure Project where
  clientID : String
  originURL : Option String
  deriving Repr, DecidableEq

/-- An HTTP response: status, headers (in order), body. -/
structure Resp where
  status : Nat
  headers : List (String × String)
  body : String
  deriving Repr, DecidableEq

def headersAppend (hs : List (String × String)) (k v : String) :
    List (String × String) :=
  hs ++ [(k, v)]

/-- `Headers.set`: drop previous values for the name, then add the new one. -/
def headersSet (hs : List (String × String)) (k v : String) :
    List (String × String) :=
  (hs.filter (fun kv => kv.1 != k)) ++ [(k, v)]

def headersGet (hs : List (String × String)) (k : String) : Option String :=
  (hs.find? (fun kv => kv.1 == k)).map (fun kv => kv.2)

/-- `RequestManager.prepare`: append every collected header to the response,
then set `Access-Control-Allow-Origin` to
`project?.originURL || env.WEBUI_ORIGIN_URL`. -/
def prepare (resp : Resp) (managerHeaders : List (String × String))
    (project : Option Project) (webuiOriginUrl : String) : Resp :=
  let hs := managerHeaders.foldl (fun acc kv => headersAppend acc kv.1 kv.2)
    resp.headers
  { resp with
    headers := headersSet hs "Access-Control-Allow-Origin"
      ((jsOrStr (project.bind (fun p => p.originURL)) (some webuiOriginUrl)).getD
        webuiOriginUrl) }

/-- What the `_fetch` handler caught. -/
inductive FetchError where
  | requestError (message : String) (status : Nat)
  | generic (message : String)
  deriving Repr, DecidableEq

/-- The catch block of `_fetch`: a `RequestError` becomes a response with its
message and status, run through `prepare` (so it carries the collected
headers and the tenant-scoped `Access-Control-Allow-Origin`); any other error
becomes a bare `new Response("Internal Server Error", { status: 500 })` with
no headers at all. -/
def handleFetchError (managerHeaders : List (String × String))
    (project : Option Project) (webuiOriginUrl : String) : FetchError → Resp
  | FetchError.requestError msg status =>
    prepare { status := status, headers := [], body := msg }
      managerHeaders project webuiOriginUrl
  | FetchError.generic _ =>
    { status := 500, headers := [], body := "Internal Server Error" }

/-! ## WebUI admin-email allowlist (`RequestManager.handleWebUIRegister`) -/

/-- `RequestManager.handleWebUIRegister` from `index.ts`: on a POST to a
`/register` path for the reserved `openauth_webui` tenant, read the form's
`email`, trim it, and throw `Unauthorized` (401) when it is truthy and its
trimmed value equals no trimmed entry of the comma-separated
`WEBUI_ADMIN_EMAILS` list.  Returns `true` iff the check throws. -/
def handleWebUIRegister (clientID : Option String) (method pathname : String)
    (formEmail : Option String) (webuiAdminEmails : String) : Bool :=
  if clientID == some "openauth_webui" && method == "POST"
      && jsEndsWith pathname "/register" then
    match formEmail.map jsTrim with
    | some email =>
      email != "" &&
        !((jsSplit webuiAdminEmails ",").any (fun e => jsTrim e == email))
    | none => false
  else false

/-- The `/password/register` middleware from `d1-adapter.ts` (the Hono
variant): for the reserved tenant on POST with form `action = "register"`,
reject unless the raw (untrimmed) form email equals some trimmed entry of
`WEBUI_ADMIN_EMAILS` — in particular an absent email is rejected.  Returns
`true` iff the middleware responds 401. -/
def passwordRegisterMiddlewareRejects (clientID : Option String)
    (method : String) (action : Option String) (formEmail : Option String)
    (webuiAdminEmails : String) : Bool :=
  if clientID == some "openauth_webui" && method == "POST" then
    if action == some "register" then
      !((jsSplit webuiAdminEmails ",").any
          (fun e => match formEmail with
                    | some m => jsTrim e == m
                    | none => false))
    else false
  else false

/-! ## Helper lemmas -/

theorem find?_map_of_pred {α : Type} (l : List α) (g : α → α) (p : α → Bool)
    (h : ∀ x, p (g x) = p x) :
    (l.map g).find? p = (l.find? p).map g := by
  rw [List.find?_map]
  have hpg : (p ∘ g) = p := funext h
  rw [hpg]

theorem headers_foldl_append (mh init : List (String × String)) :
    mh.foldl (fun acc kv => headersAppend acc kv.1 kv.2) init = init ++ mh := by
  induction mh generalizing init with
  | nil => simp
  | cons kv t ih =>
    rw [List.foldl_cons, ih]
    simp [headersAppend]

/-! ## C5: shared-secret check -/

theorem ensureSecret_some_eq (projects : List ProjectRow) (pid s : String)
    (hs : s ≠ "") :
    ensureSecret (some s) pid projects =
      match projects.find? (fun p => p.clientID == pid && p.secret == s) with
      | none => Except.error SecretErr.invalidSecret
      | some p => Except.ok p.secret := by
  simp [ensureSecret, hs]

/-- C5: `ensureSecret` rejects a missing or empty secret with a 401 before any
tenant lookup (the result does not depend on the project table), rejects a
wrong secret with a 401, succeeds exactly on a non-empty secret matching a
stored `(clientID, secret)` row, and the wrong-secret rejection is the same
value whether or not a project row for the tenant exists. -/
theorem claim_C5 (projects : List ProjectRow) (pid s : String) (hs : s ≠ "") :
    (∀ anyProjects : List ProjectRow,
      ensureSecret none pid anyProjects = Except.error SecretErr.missingSecret ∧
      ensureSecret (some "") pid anyProjects
        = Except.error SecretErr.missingSecret) ∧
    ((∀ p ∈ projects, p.clientID = pid → p.secret ≠ s) →
      ensureSecret (some s) pid projects = Except.error SecretErr.invalidSecret) ∧
    ((∃ p ∈ projects, p.clientID = pid ∧ p.secret = s) →
      ensureSecret (some s) pid projects = Except.ok s) ∧
    (∀ projectsAbsent : List ProjectRow,
      (∀ p ∈ projectsAbsent, p.clientID ≠ pid) →
      (∀ p ∈ projects, p.clientID = pid → p.secret ≠ s) →
      ensureSecret (some s) pid projects
        = ensureSecret (some s) pid projectsAbsent) ∧
    SecretErr.missingSecret.status = 401 ∧ SecretErr.invalidSecret.status = 401 := by
  have hinv : ∀ (l : List ProjectRow), (∀ p ∈ l, p.clientID = pid → p.secret ≠ s) →
      ensureSecret (some s) pid l = Except.error SecretErr.invalidSecret := by
    intro l hl
    rw [ensureSecret_some_eq l pid s hs]
    have hnone : l.find? (fun p => p.clientID == pid && p.secret == s) = none := by
      rw [List.find?_eq_none]
      intro p hp
      simp only [Bool.and_eq_true, beq_iff_eq, not_and]
      intro hc
      exact fun hsec => hl p hp hc hsec
    rw [hnone]
  refine ⟨?_, hinv projects, ?_, ?_, rfl, rfl⟩
  · intro anyProjects
    exact ⟨rfl, by simp [ensureSecret]⟩
  · rintro ⟨p, hp, hc, hsec⟩
    rw [ensureSecret_some_eq projects pid s hs]
    have hsome : (projects.find? (fun p => p.clientID == pid && p.secret == s)).isSome := by
      rw [List.find?_isSome]
      exact ⟨p, hp, by simp [hc, hsec]⟩
    cases hq : projects.find? (fun p => p.clientID == pid && p.secret == s) with
    | none => rw [hq] at hsome; simp at hsome
    | some q =>
      have := List.find?_some hq
      simp only [Bool.and_eq_true, beq_iff_eq] at this
      simp [this.2]
  · intro projectsAbsent habs hwrong
    rw [hinv projects hwrong, hinv projectsAbsent (fun p hp hc => absurd hc (habs p hp))]

/-- C5 witness. -/
theorem claim_C5_witness :
    ("wrong" ≠ "" ∧ True) ∧
    (ensureSecret (some "wrong") "acme"
        [{ clientID := "acme", secret := "topsecret" }]
      = Except.error SecretErr.invalidSecret) := by
  have h := claim_C5 [{ clientID := "acme", secret := "topsecret" }] "acme" "wrong"
    (by decide)
  refine ⟨⟨by decide, trivial⟩, h.2.1 ?_⟩
  intro p hp hc
  simp only [List.mem_singleton] at hp
  subst hp
  decide

/-! ## C6: OIDC-family identity extraction -/

/-- C6 counterexample: the Slack and Cognito parsers do not fail when `sub` is
absent — they silently use the email as the identifier. -/
theorem claim_C6_counterexample :
    (slackParser { sub := none, email := some "user@example.com", name := none }).1
      = some "user@example.com" ∧
    (cognitoParser ⟨none, some "user@example.com", none⟩).1
      = some "user@example.com" := by
  exact ⟨rfl, rfl⟩

/-- C6 amended: the plain OIDC parser returns the `sub` claim and fails with an
extraction error when `sub` is absent or empty; the Slack and Cognito parsers
return `sub` when it is present and non-empty but silently fall back to the
`email` field otherwise. -/
theorem claim_C6_amended (id : OidcIdToken) (info : SlackUserInfo)
    (cinfo : CognitoUserInfo) :
    (∀ s, id.sub = some s → s ≠ "" → oidcParser id = Except.ok (s, id)) ∧
    (id.sub = none ∨ id.sub = some "" →
      oidcParser id = Except.error ExtractErr.missingSub) ∧
    (∀ s, info.sub = some s → s ≠ "" → (slackParser info).1 = some s) ∧
    (jsTruthyStr info.sub = false → (slackParser info).1 = info.email) ∧
    (∀ s, cinfo.sub = some s → s ≠ "" → (cognitoParser cinfo).1 = some s) ∧
    (jsTruthyStr cinfo.sub = false → (cognitoParser cinfo).1 = cinfo.email) := by
  refine ⟨?_, ?_, ?_, ?_, ?_, ?_⟩
  · intro s hsub hne
    simp [oidcParser, hsub, hne]
  · rintro (hsub | hsub) <;> simp [oidcParser, hsub]
  · intro s hsub hne
    simp [slackParser, hsub, jsTruthyStr, hne]
  · intro hf
    simp [slackParser, hf]
  · intro s hsub hne
    simp [cognitoParser, hsub, jsTruthyStr, hne]
  · intro hf
    simp [cognitoParser, hf]

/-- C6 amended witness. -/
theorem claim_C6_amended_witness :
    ({ sub := some "sub-1", claims := [] } : OidcIdToken).sub = some "sub-1" ∧
    "sub-1" ≠ "" ∧
    oidcParser { sub := some "sub-1", claims := [] }
      = Except.ok ("sub-1", { sub := some "sub-1", claims := [] }) ∧
    jsTruthyStr ({ sub := none, email := some "e@x", name := none } : SlackUserInfo).sub
      = false ∧
    (slackParser { sub := none, email := some "e@x", name := none }).1 = some "e@x" := by
  have h := claim_C6_amended { sub := some "sub-1", claims := [] }
    { sub := none, email := some "e@x", name := none }
    { sub := none, email := none, username := none }
  exact ⟨rfl, by decide, h.1 "sub-1" rfl (by decide), rfl, h.2.2.2.1 rfl⟩

/-! ## C7: admin user-list pagination -/

/-- C7: with a non-zero `limit = L` and a 1-based `page = P`, `fetchUserList`
returns exactly the stored users at positions `(P-1)*L+1 .. P*L` of the table
in order; with `limit` omitted it returns the whole table. -/
theorem claim_C7 (users : List UserRow) (L P : Nat) (hL : L ≠ 0) (hP : 1 ≤ P) :
    (∃ res, fetchUserList users (some L) (some P) = some res ∧
      res.length = min L (users.length - (P - 1) * L) ∧
      (∀ i, i < L → res[i]? = users[(P - 1) * L + i]?) ∧
      (∀ i, L ≤ i → res[i]? = none)) ∧
    (∀ page?, fetchUserList users none page? = some users) := by
  have hoff : (((P : Int) - 1) * (L : Int)).toNat = (P - 1) * L := by
    have h1 : ((P : Int) - 1) = ((P - 1 : Nat) : Int) := by omega
    rw [h1, ← Int.natCast_mul, Int.toNat_natCast]
  constructor
  · refine ⟨(users.drop ((P - 1) * L)).take L, ?_, ?_, ?_, ?_⟩
    · simp [fetchUserList, hL, hoff]
    · rw [List.length_take, List.length_drop]
    · intro i hi
      rw [List.getElem?_take, if_pos hi, List.getElem?_drop]
    · intro i hi
      rw [List.getElem?_take, if_neg (by omega)]
  · intro page?
    rfl

/-- A concrete 25-row user table for exercising the pagination claim. -/
def sampleUsers : List UserRow :=
  (List.range 25).map (fun i => ⟨toString i, toString i, [], none, none, ""⟩)

/-- C7 witness: 25 users, `page=2&limit=10` returns users 11–20. -/
theorem claim_C7_witness :
    (10 ≠ 0 ∧ 1 ≤ 2) ∧
    ((∃ res, fetchUserList sampleUsers (some 10) (some 2) = some res ∧
      res.length = min 10 (sampleUsers.length - (2 - 1) * 10) ∧
      (∀ i, i < 10 → res[i]? = sampleUsers[(2 - 1) * 10 + i]?) ∧
      (∀ i, 10 ≤ i → res[i]? = none)) ∧
     (∀ page?, fetchUserList sampleUsers none page? = some sampleUsers)) := by
  exact ⟨⟨by decide, by decide⟩, claim_C7 sampleUsers 10 2 (by decide) (by decide)⟩

/-! ## C9: CORS headers on error responses -/

/-- C9 counterexample: an unexpected (non-`RequestError`) failure produces the
bare `Internal Server Error` response with no headers at all — in particular
no `Access-Control-Allow-Origin` — even though CORS headers had been computed
and a tenant had been resolved. -/
theorem claim_C9_counterexample :
    handleFetchError
      [("Access-Control-Allow-Credentials", "true"), ("Vary", "Origin, Cookie")]
      (some ⟨"acme", some "https://acme.example"⟩)
      "https://webui.example" (FetchError.generic "boom")
      = { status := 500, headers := [], body := "Internal Server Error" } ∧
    headersGet (handleFetchError
      [("Access-Control-Allow-Credentials", "true"), ("Vary", "Origin, Cookie")]
      (some ⟨"acme", some "https://acme.example"⟩)
      "https://webui.example" (FetchError.generic "boom")).headers
      "Access-Control-Allow-Origin" = none := by
  exact ⟨rfl, rfl⟩

/-- C9 amended: a failure carried by a `RequestError` is turned into a
response with that error's status that still carries every computed header
(except ones shadowed by the final `set`) and an `Access-Control-Allow-Origin`
equal to the tenant's registered origin when one was resolved (falling back to
the WebUI origin); an unexpected non-`RequestError` failure instead degrades
to a bare 500 with no headers. -/
theorem claim_C9_amended (mh : List (String × String)) (project : Option Project)
    (w msg : String) (st : Nat) :
    ((handleFetchError mh project w (FetchError.requestError msg st)).status = st ∧
     (handleFetchError mh project w (FetchError.requestError msg st)).body = msg ∧
     headersGet (handleFetchError mh project w
         (FetchError.requestError msg st)).headers "Access-Control-Allow-Origin"
       = some ((jsOrStr (project.bind (fun p => p.originURL)) (some w)).getD w) ∧
     (∀ kv ∈ mh, kv.1 ≠ "Access-Control-Allow-Origin" →
       kv ∈ (handleFetchError mh project w
         (FetchError.requestError msg st)).headers)) ∧
    (∀ m, handleFetchError mh project w (FetchError.generic m)
      = { status := 500, headers := [], body := "Internal Server Error" }) := by
  have hhd : (handleFetchError mh project w (FetchError.requestError msg st)).headers
      = (mh.filter (fun kv => kv.1 != "Access-Control-Allow-Origin"))
        ++ [("Access-Control-Allow-Origin",
             (jsOrStr (project.bind (fun p => p.originURL)) (some w)).getD w)] := by
    show (prepare ⟨st, [], msg⟩ mh project w).headers = _
    rw [prepare]
    simp only [headersSet, headers_foldl_append, List.nil_append]
  refine ⟨⟨rfl, rfl, ?_, ?_⟩, fun m => rfl⟩
  · rw [hhd]
    show jsLookup _ _ = _
    rw [jsLookup_append]
    have hleft : jsLookup
        (mh.filter (fun kv => kv.1 != "Access-Control-Allow-Origin"))
        "Access-Control-Allow-Origin" = none := by
      apply jsLookup_filter_drop
      intro kv hkv
      simp [hkv]
    rw [hleft]
    rfl
  · intro kv hmem hne
    rw [hhd]
    exact List.mem_append_left _ (List.mem_filter.mpr ⟨hmem, by simp [hne]⟩)

/-- C9 amended witness. -/
theorem claim_C9_amended_witness :
    (handleFetchError [("Vary", "Origin, Cookie")]
        (some ⟨"acme", some "https://acme.example"⟩) "https://webui.example"
        (FetchError.requestError "Unauthorized" 401)).status = 401 ∧
    headersGet (handleFetchError [("Vary", "Origin, Cookie")]
        (some ⟨"acme", some "https://acme.example"⟩) "https://webui.example"
        (FetchError.requestError "Unauthorized" 401)).headers
      "Access-Control-Allow-Origin" = some "https://acme.example" ∧
    ("Vary", "Origin, Cookie")
      ∈ (handleFetchError [("Vary", "Origin, Cookie")]
        (some ⟨"acme", some "https://acme.example"⟩) "https://webui.example"
        (FetchError.requestError "Unauthorized" 401)).headers := by
  have h := claim_C9_amended [("Vary", "Origin, Cookie")]
    (some ⟨"acme", some "https://acme.example"⟩) "https://webui.example"
    "Unauthorized" 401
  exact ⟨h.1.1, h.1.2.2.1,
    h.1.2.2.2 ("Vary", "Origin, Cookie") (List.mem_singleton.mpr rfl) (by decide)⟩

/-! ## C10: WebUI admin-email allowlist -/

/-- C10 counterexample: a registration POST for the reserved tenant whose form
email is whitespace-only trims to the empty string, which equals no trimmed
entry of the allowlist — yet the check does not raise `Unauthorized`. -/
theorem claim_C10_counterexample :
    handleWebUIRegister (some "openauth_webui") "POST" "/password/register"
      (some "   ") "admin@x.com" = false ∧
    (jsTrim "   " = "") ∧
    ¬ ((jsSplit "admin@x.com" ",").any (fun e => jsTrim e == jsTrim "   ")) = true := by
  refine ⟨by decide, by decide, by decide⟩

/-- C10 amended: on a registration POST for the reserved tenant,
`handleWebUIRegister` raises `Unauthorized` iff the form carries an email
whose trimmed value is non-empty and equals no trimmed entry of
`WEBUI_ADMIN_EMAILS`; a missing (or whitespace-only) email is not rejected
and registration proceeds. -/
theorem claim_C10_amended (pathname email admins : String)
    (hp : jsEndsWith pathname "/register" = true) :
    (handleWebUIRegister (some "openauth_webui") "POST" pathname (some email)
        admins = true
      ↔ (jsTrim email ≠ "" ∧ ∀ e ∈ jsSplit admins ",", jsTrim e ≠ jsTrim email)) ∧
    handleWebUIRegister (some "openauth_webui") "POST" pathname none admins
      = false ∧
    (∀ m, m ≠ "POST" →
      handleWebUIRegister (some "openauth_webui") m pathname (some email) admins
        = false) := by
  refine ⟨?_, ?_, ?_⟩
  · simp [handleWebUIRegister, hp, List.any_eq_true, not_exists]
  · simp [handleWebUIRegister, hp]
  · intro m hm
    simp [handleWebUIRegister, hm]

/-- C10 amended witness. -/
theorem claim_C10_amended_witness :
    (jsEndsWith "/password/register" "/register" = true) ∧
    ((handleWebUIRegister (some "openauth_webui") "POST" "/password/register"
        (some " evil@z.com ") "admin@x.com, other@y.com" = true
      ↔ (jsTrim " evil@z.com " ≠ "" ∧
          ∀ e ∈ jsSplit "admin@x.com, other@y.com" ",",
            jsTrim e ≠ jsTrim " evil@z.com ")) ∧
     handleWebUIRegister (some "openauth_webui") "POST" "/password/register"
        none "admin@x.com, other@y.com" = false ∧
     (∀ m, m ≠ "POST" →
       handleWebUIRegister (some "openauth_webui") m "/password/register"
         (some " evil@z.com ") "admin@x.com, other@y.com" = false)) := by
  exact ⟨by decide, claim_C10_amended "/password/register" " evil@z.com "
    "admin@x.com, other@y.com" (by decide)⟩

/-! ## Upsert helper lemmas -/

/-- After an upsert for identifier `I`, a lookup by `I` finds a row whose id is
the returned id and whose data is the stored data. -/
theorem upsert_find (users : List UserRow) (f c I : String) (d : Doc) :
    ∃ row, (upsertUserRow users f c I d).1.find? (fun r => r.identifier == I)
        = some row ∧
      row.id = (upsertUserRow users f c I d).2 ∧ row.data = d := by
  cases hfind : users.find? (fun r => r.identifier == I) with
  | some r0 =>
    have hp : (r0.identifier == I) = true := by
      have hq := List.find?_some hfind
      simpa using hq
    have hmap : ((users.map (fun r =>
        if r.identifier == I then { r with data := d } else r)).find?
          (fun r => r.identifier == I))
        = (users.find? (fun r => r.identifier == I)).map
            (fun r => if r.identifier == I then { r with data := d } else r) := by
      apply find?_map_of_pred
      intro r
      by_cases hr : r.identifier = I <;> simp [hr]
    have hpeq : r0.identifier = I := by simpa using hp
    refine ⟨{ r0 with data := d }, ?_, ?_, rfl⟩
    · simp only [upsertUserRow, hfind]
      rw [hmap, hfind]
      simp [hpeq]
    · simp [upsertUserRow, hfind]
  | none =>
    refine ⟨{ id := f, identifier := I, data := d, session_public := none,
              session_private := none, created_at := c }, ?_, ?_, rfl⟩
    · simp only [upsertUserRow, hfind]
      rw [List.find?_append, hfind]
      simp
    · simp [upsertUserRow, hfind]

/-- After an upsert for identifier `I`, every row carrying identifier `I` holds
exactly the stored data, and such a row exists. -/
theorem upsert_post (users : List UserRow) (f c I : String) (d : Doc) :
    (∀ row ∈ (upsertUserRow users f c I d).1, row.identifier = I →
      row.data = d) ∧
    (∃ row ∈ (upsertUserRow users f c I d).1, row.identifier = I ∧
      row.id = (upsertUserRow users f c I d).2 ∧ row.data = d) := by
  cases hfind : users.find? (fun r => r.identifier == I) with
  | some r0 =>
    have hp : (r0.identifier == I) = true := by
      have hq := List.find?_some hfind
      simpa using hq
    have hmem : r0 ∈ users := List.mem_of_find?_eq_some hfind
    constructor
    · intro row hrow hrowI
      simp only [upsertUserRow, hfind, List.mem_map] at hrow
      obtain ⟨r', hr', hre⟩ := hrow
      by_cases hr'I : r'.identifier = I
      · rw [← hre]
        simp [hr'I]
      · rw [← hre] at hrowI
        simp [hr'I] at hrowI
    · refine ⟨{ r0 with data := d }, ?_, ?_, ?_, rfl⟩
      · simp only [upsertUserRow, hfind, List.mem_map]
        exact ⟨r0, hmem, by simp [hp]⟩
      · simpa using hp
      · simp [upsertUserRow, hfind]
  | none =>
    have hnone := List.find?_eq_none.mp hfind
    constructor
    · intro row hrow hrowI
      simp only [upsertUserRow, hfind, List.mem_append, List.mem_singleton] at hrow
      cases hrow with
      | inl hin =>
        exfalso
        exact (hnone row hin) (by simp [hrowI])
      | inr hnew => rw [hnew]
    · refine ⟨{ id := f, identifier := I, data := d, session_public := none,
                session_private := none, created_at := c }, ?_, rfl, ?_, rfl⟩
      · simp [upsertUserRow, hfind]
      · simp [upsertUserRow, hfind]

/-- With `registerOnInvite = false`, `getOrCreateUser` goes straight to the
upsert and the trailing invite-link delete. -/
theorem IndexTs.getOrCreateUser_noInvite (st : TenantState) (inp : LoginInput)
    (h : inp.registerOnInvite = false) :
    IndexTs.getOrCreateUser st inp =
      (Except.ok (upsertUserRow st.users inp.freshId inp.createdAt
          inp.identifier (dataToStore inp.userData inp.provider)).2,
       { users := (upsertUserRow st.users inp.freshId inp.createdAt
           inp.identifier (dataToStore inp.userData inp.provider)).1,
         invites :=
           match inp.inviteID with
           | some iid => removeInviteLinkById st.invites iid
           | none => st.invites }) := by
  simp [IndexTs.getOrCreateUser, h]

/-- The returned id of an upsert immediately following an upsert for the same
identifier is the first upsert's returned id. -/
theorem upsert_upsert_id (users : List UserRow) (f1 c1 f2 c2 I : String)
    (d1 d2 : Doc) :
    (upsertUserRow (upsertUserRow users f1 c1 I d1).1 f2 c2 I d2).2
      = (upsertUserRow users f1 c1 I d1).2 := by
  obtain ⟨row1, hfind, hid, -⟩ := upsert_find users f1 c1 I d1
  conv_lhs => rw [upsertUserRow, hfind]
  exact hid

/-! ## C1: repeat-login upsert semantics -/

/-- C1 counterexample: on an invite-required tenant the claim's "twice with
the same (T, I) returns the same user id both times" fails — the first login
consumes (deletes) the invite link, so the second login with the same
identifier is rejected by the invite gate instead of returning an id at
all. -/
theorem claim_C1_counterexample :
    (IndexTs.getOrCreateUser
      { users := [], invites := [⟨"inv1", "acme", some 100⟩] }
      ⟨true, some "inv1", "a@x.com", [], "password", "u1", "t1", 50⟩).1
      = Except.ok "u1" ∧
    (IndexTs.getOrCreateUser
      (IndexTs.getOrCreateUser
        { users := [], invites := [⟨"inv1", "acme", some 100⟩] }
        ⟨true, some "inv1", "a@x.com", [], "password", "u1", "t1", 50⟩).2
      ⟨true, some "inv1", "a@x.com", [], "password", "u2", "t2", 60⟩).1
      = Except.error (AuthErr.invalidInvite InviteErr.notFound) := by
  exact ⟨rfl, rfl⟩

/-- C1 amended: on a tenant whose registration is not invite-gated, running
the login-success upsert twice with the same identifier yields the same user
id both times, and afterwards the stored profile data of that identifier is
exactly the second call's extracted data tagged with the provider (a replace,
never a merge of the two calls' data).  On an invite-required tenant the
second login never reaches the upsert, as shown by the counterexample. -/
theorem claim_C1 (st : TenantState) (inp1 inp2 : LoginInput) (I : String)
    (h1 : inp1.registerOnInvite = false) (h2 : inp2.registerOnInvite = false)
    (hid1 : inp1.identifier = I) (hid2 : inp2.identifier = I) :
    ∃ uid,
      (IndexTs.getOrCreateUser st inp1).1 = Except.ok uid ∧
      (IndexTs.getOrCreateUser (IndexTs.getOrCreateUser st inp1).2 inp2).1
        = Except.ok uid ∧
      (∃ row ∈ (IndexTs.getOrCreateUser
          (IndexTs.getOrCreateUser st inp1).2 inp2).2.users,
        row.identifier = I ∧ row.id = uid ∧
        row.data = dataToStore inp2.userData inp2.provider) ∧
      (∀ row ∈ (IndexTs.getOrCreateUser
          (IndexTs.getOrCreateUser st inp1).2 inp2).2.users,
        row.identifier = I →
        row.data = dataToStore inp2.userData inp2.provider) := by
  have e1 := IndexTs.getOrCreateUser_noInvite st inp1 h1
  rw [hid1] at e1
  have e2 := IndexTs.getOrCreateUser_noInvite (IndexTs.getOrCreateUser st inp1).2
    inp2 h2
  rw [hid2] at e2
  have husers1 : (IndexTs.getOrCreateUser st inp1).2.users
      = (upsertUserRow st.users inp1.freshId inp1.createdAt I
          (dataToStore inp1.userData inp1.provider)).1 := by
    rw [e1]
  refine ⟨(upsertUserRow st.users inp1.freshId inp1.createdAt I
      (dataToStore inp1.userData inp1.provider)).2, ?_, ?_, ?_, ?_⟩
  · rw [e1]
  · rw [e2]
    simp only [husers1]
    rw [upsert_upsert_id]
  · rw [e2]
    simp only [husers1]
    obtain ⟨row, hmem, hI, hid, hdata⟩ :=
      (upsert_post (upsertUserRow st.users inp1.freshId inp1.createdAt I
        (dataToStore inp1.userData inp1.provider)).1
        inp2.freshId inp2.createdAt I
        (dataToStore inp2.userData inp2.provider)).2
    exact ⟨row, hmem, hI, by rw [hid, upsert_upsert_id], hdata⟩
  · rw [e2]
    simp only [husers1]
    exact (upsert_post (upsertUserRow st.users inp1.freshId inp1.createdAt I
      (dataToStore inp1.userData inp1.provider)).1
      inp2.freshId inp2.createdAt I
      (dataToStore inp2.userData inp2.provider)).1

/-- C1 witness. -/
theorem claim_C1_witness :
    ∃ uid,
      (IndexTs.getOrCreateUser { users := [], invites := [] }
        { registerOnInvite := false, inviteID := none, identifier := "a@x.com",
          userData := [("email", JVal.vStr "a@x.com")], provider := "password",
          freshId := "uuid-1", createdAt := "t1", now := 0 }).1
        = Except.ok uid ∧
      (IndexTs.getOrCreateUser (IndexTs.getOrCreateUser
          { users := [], invites := [] }
          { registerOnInvite := false, inviteID := none,
            identifier := "a@x.com",
            userData := [("email", JVal.vStr "a@x.com")],
            provider := "password", freshId := "uuid-1", createdAt := "t1",
            now := 0 }).2
        { registerOnInvite := false, inviteID := none, identifier := "a@x.com",
          userData := [("name", JVal.vStr "Alice")], provider := "password",
          freshId := "uuid-2", createdAt := "t2", now := 0 }).1
        = Except.ok uid ∧
      (∃ row ∈ (IndexTs.getOrCreateUser (IndexTs.getOrCreateUser
          { users := [], invites := [] }
          { registerOnInvite := false, inviteID := none,
            identifier := "a@x.com",
            userData := [("email", JVal.vStr "a@x.com")],
            provider := "password", freshId := "uuid-1", createdAt := "t1",
            now := 0 }).2
        { registerOnInvite := false, inviteID := none, identifier := "a@x.com",
          userData := [("name", JVal.vStr "Alice")], provider := "password",
          freshId := "uuid-2", createdAt := "t2", now := 0 }).2.users,
        row.identifier = "a@x.com" ∧ row.id = uid ∧
        row.data = dataToStore [("name", JVal.vStr "Alice")] "password") ∧
      (∀ row ∈ (IndexTs.getOrCreateUser (IndexTs.getOrCreateUser
          { users := [], invites := [] }
          { registerOnInvite := false, inviteID := none,
            identifier := "a@x.com",
            userData := [("email", JVal.vStr "a@x.com")],
            provider := "password", freshId := "uuid-1", createdAt := "t1",
            now := 0 }).2
        { registerOnInvite := false, inviteID := none, identifier := "a@x.com",
          userData := [("name", JVal.vStr "Alice")], provider := "password",
          freshId := "uuid-2", createdAt := "t2", now := 0 }).2.users,
        row.identifier = "a@x.com" →
        row.data = dataToStore [("name", JVal.vStr "Alice")] "password") := by
  exact claim_C1 { users := [], invites := [] }
    { registerOnInvite := false, inviteID := none, identifier := "a@x.com",
      userData := [("email", JVal.vStr "a@x.com")], provider := "password",
      freshId := "uuid-1", createdAt := "t1", now := 0 }
    { registerOnInvite := false, inviteID := none, identifier := "a@x.com",
      userData := [("name", JVal.vStr "Alice")], provider := "password",
      freshId := "uuid-2", createdAt := "t2", now := 0 }
    "a@x.com" rfl rfl rfl rfl

/-! ## C4: returning users skip invite validation -/

/-- C4: in the adapter's `getOrCreateUser`, when a user row with the login's
identifier already exists, the call behaves exactly as if the tenant did not
require invites at all — it succeeds (returning the existing row's id) for
every invite id, including a missing, unknown or expired one. -/
theorem claim_C4 (st : TenantState) (inp : LoginInput)
    (hreg : inp.registerOnInvite = true) (row : UserRow)
    (hfind : st.users.find? (fun r => r.identifier == inp.identifier)
      = some row) :
    D1Adapter.getOrCreateUser st inp
      = D1Adapter.getOrCreateUser st { inp with registerOnInvite := false } ∧
    (D1Adapter.getOrCreateUser st inp).1 = Except.ok row.id := by
  have hex : userExists st.users inp.identifier = true := by
    simp [userExists, hfind]
  constructor
  · simp [D1Adapter.getOrCreateUser, hreg, hex]
  · simp [D1Adapter.getOrCreateUser, hreg, hex, upsertUserRow, hfind]

/-- C4 witness: a returning user logs in with an expired invite id present and
still succeeds. -/
theorem claim_C4_witness :
    ({ registerOnInvite := true, inviteID := some "expired-invite",
       identifier := "a@x.com", userData := [], provider := "password",
       freshId := "uuid-9", createdAt := "t9",
       now := 1000 } : LoginInput).registerOnInvite = true ∧
    ([⟨"u1", "a@x.com", [], none, none, "t0"⟩] : List UserRow).find?
        (fun r => r.identifier == "a@x.com")
      = some ⟨"u1", "a@x.com", [], none, none, "t0"⟩ ∧
    (D1Adapter.getOrCreateUser
      { users := [⟨"u1", "a@x.com", [], none, none, "t0"⟩],
        invites := [⟨"expired-invite", "acme", some 5⟩] }
      { registerOnInvite := true, inviteID := some "expired-invite",
        identifier := "a@x.com", userData := [], provider := "password",
        freshId := "uuid-9", createdAt := "t9", now := 1000 }).1
      = Except.ok "u1" := by
  refine ⟨rfl, by decide, ?_⟩
  exact (claim_C4
    { users := [⟨"u1", "a@x.com", [], none, none, "t0"⟩],
      invites := [⟨"expired-invite", "acme", some 5⟩] }
    { registerOnInvite := true, inviteID := some "expired-invite",
      identifier := "a@x.com", userData := [], provider := "password",
      freshId := "uuid-9", createdAt := "t9", now := 1000 }
    rfl ⟨"u1", "a@x.com", [], none, none, "t0"⟩ (by decide)).2

/-! ## C2: public session merge vs replace -/

/-- The document `updateUserPublicData` computes for a found row:
`skipMerge ? newData : { ...(current || \x7b\x7d), ...newData }`. -/
def mergedPublic (row : UserRow) (newData : Jso) (skipMerge : Bool) : Jso :=
  if skipMerge then newData
  else some (objSpread ((parseStoredJson row.session_public).getD [])
    (newData.getD []))

theorem find?_id_map (users : List UserRow) (uid : String)
    (g : UserRow → UserRow) (hg : ∀ r, (g r).id = r.id) :
    (users.map g).find? (fun r => r.id == uid)
      = (users.find? (fun r => r.id == uid)).map g := by
  apply find?_map_of_pred
  intro r
  rw [hg]

theorem updateUserPublicData_found (users : List UserRow) (uid : String)
    (row : UserRow) (newData : Jso) (skipMerge : Bool)
    (hfind : users.find? (fun r => r.id == uid) = some row) :
    updateUserPublicData users uid newData skipMerge
      = some (users.map (fun r =>
          if r.id == uid then
            { r with session_public := some (mergedPublic row newData skipMerge) }
          else r),
        mergedPublic row newData skipMerge) := by
  simp [updateUserPublicData, hfind, mergedPublic]

theorem updateUserPublicData_found_find? (users : List UserRow) (uid : String)
    (row : UserRow) (newData : Jso) (skipMerge : Bool)
    (hfind : users.find? (fun r => r.id == uid) = some row) :
    (users.map (fun r =>
        if r.id == uid then
          { r with session_public := some (mergedPublic row newData skipMerge) }
        else r)).find? (fun r => r.id == uid)
      = some { row with
          session_public := some (mergedPublic row newData skipMerge) } := by
  have hpeq : row.id = uid := by
    have hq := List.find?_some hfind
    simpa using hq
  rw [find?_id_map]
  · rw [hfind]
    simp [hpeq]
  · intro r
    by_cases hr : r.id = uid <;> simp [hr]

/-- The lookup shape of the concrete document `{a: 1, b: 2}`. -/
theorem lookup_ab (k : String) :
    jsOr (jsLookup [("b", JVal.vNum 2)] k)
      (jsOr (jsLookup [("a", JVal.vNum 1)] k)
        (jsLookup ([] : Doc) k))
    = jsLookup [("a", JVal.vNum 1), ("b", JVal.vNum 2)] k := by
  by_cases ha : ("a" : String) = k
  · by_cases hb : ("b" : String) = k
    · exact absurd (ha.trans hb.symm) (by decide)
    · simp [jsLookup_cons, jsLookup_nil, jsOr, ha, hb]
  · by_cases hb : ("b" : String) = k <;>
      simp [jsLookup_cons, jsLookup_nil, jsOr, ha, hb]

/-- C2: for an existing user, `updatePublic {a:1}` then `updatePublic {b:2}`
with merge yields a document where the patch keys win and unspecified keys are
retained from the pre-existing document (so from an empty document it equals
`{a:1,b:2}`); a second call with replace stores the patch verbatim, and a
replace with `null` clears the document. -/
theorem claim_C2 (users : List UserRow) (uid : String) (row : UserRow)
    (hfind : users.find? (fun r => r.id == uid) = some row) :
    (∃ d2,
      ((updateUserPublicData users uid (some [("a", JVal.vNum 1)]) false).bind
        (fun res => updateUserPublicData res.1 uid
          (some [("b", JVal.vNum 2)]) false)).map Prod.snd
        = some (some d2) ∧
      (∀ k, jsLookup d2 k
        = jsOr (jsLookup [("b", JVal.vNum 2)] k)
            (jsOr (jsLookup [("a", JVal.vNum 1)] k)
              (jsLookup ((parseStoredJson row.session_public).getD []) k))) ∧
      ((parseStoredJson row.session_public).getD [] = [] →
        ∀ k, jsLookup d2 k
          = jsLookup [("a", JVal.vNum 1), ("b", JVal.vNum 2)] k)) ∧
    ((updateUserPublicData users uid (some [("a", JVal.vNum 1)]) false).bind
      (fun res => updateUserPublicData res.1 uid
        (some [("b", JVal.vNum 2)]) true)).map Prod.snd
      = some (some [("b", JVal.vNum 2)]) ∧
    ((updateUserPublicData users uid (some [("a", JVal.vNum 1)]) false).bind
      (fun res => updateUserPublicData res.1 uid none true)).map Prod.snd
      = some none := by
  have h1 := updateUserPublicData_found users uid row
    (some [("a", JVal.vNum 1)]) false hfind
  have hrow1find := updateUserPublicData_found_find? users uid row
    (some [("a", JVal.vNum 1)]) false hfind
  have hm1 : mergedPublic row (some [("a", JVal.vNum 1)]) false
      = some (objSpread ((parseStoredJson row.session_public).getD [])
        [("a", JVal.vNum 1)]) := by
    simp [mergedPublic]
  have hbase1 : (parseStoredJson ({ row with
      session_public := some (mergedPublic row
        (some [("a", JVal.vNum 1)]) false) } : UserRow).session_public).getD []
      = objSpread ((parseStoredJson row.session_public).getD [])
          [("a", JVal.vNum 1)] := by
    simp [parseStoredJson, hm1]
  refine ⟨⟨objSpread (objSpread ((parseStoredJson row.session_public).getD [])
      [("a", JVal.vNum 1)]) [("b", JVal.vNum 2)], ?_, ?_, ?_⟩, ?_, ?_⟩
  · rw [h1]
    simp only [Option.some_bind]
    rw [updateUserPublicData_found _ uid _ (some [("b", JVal.vNum 2)]) false
      hrow1find]
    simp [mergedPublic, parseStoredJson]
  · intro k
    rw [jsLookup_objSpread, jsLookup_objSpread]
  · intro hempty k
    rw [jsLookup_objSpread, jsLookup_objSpread, hempty]
    exact lookup_ab k
  · rw [h1]
    simp only [Option.some_bind]
    rw [updateUserPublicData_found _ uid _ (some [("b", JVal.vNum 2)]) true
      hrow1find]
    simp [mergedPublic]
  · rw [h1]
    simp only [Option.some_bind]
    rw [updateUserPublicData_found _ uid _ none true hrow1find]
    simp [mergedPublic]

/-- C2 witness. -/
theorem claim_C2_witness :
    (([⟨"u1", "a@x.com", [], none, none, "t0"⟩] : List UserRow).find?
        (fun r => r.id == "u1") = some ⟨"u1", "a@x.com", [], none, none, "t0"⟩) ∧
    ((∃ d2,
      ((updateUserPublicData [⟨"u1", "a@x.com", [], none, none, "t0"⟩] "u1"
          (some [("a", JVal.vNum 1)]) false).bind
        (fun res => updateUserPublicData res.1 "u1"
          (some [("b", JVal.vNum 2)]) false)).map Prod.snd
        = some (some d2) ∧
      (∀ k, jsLookup d2 k
        = jsOr (jsLookup [("b", JVal.vNum 2)] k)
            (jsOr (jsLookup [("a", JVal.vNum 1)] k)
              (jsLookup ((parseStoredJson
                (⟨"u1", "a@x.com", [], none, none, "t0"⟩ : UserRow).session_public).getD
                []) k))) ∧
      ((parseStoredJson
          (⟨"u1", "a@x.com", [], none, none, "t0"⟩ : UserRow).session_public).getD []
          = [] →
        ∀ k, jsLookup d2 k
          = jsLookup [("a", JVal.vNum 1), ("b", JVal.vNum 2)] k)) ∧
    ((updateUserPublicData [⟨"u1", "a@x.com", [], none, none, "t0"⟩] "u1"
        (some [("a", JVal.vNum 1)]) false).bind
      (fun res => updateUserPublicData res.1 "u1"
        (some [("b", JVal.vNum 2)]) true)).map Prod.snd
      = some (some [("b", JVal.vNum 2)]) ∧
    ((updateUserPublicData [⟨"u1", "a@x.com", [], none, none, "t0"⟩] "u1"
        (some [("a", JVal.vNum 1)]) false).bind
      (fun res => updateUserPublicData res.1 "u1" none true)).map Prod.snd
      = some none) := by
  exact ⟨by decide, claim_C2 [⟨"u1", "a@x.com", [], none, none, "t0"⟩] "u1"
    ⟨"u1", "a@x.com", [], none, none, "t0"⟩ (by decide)⟩

/-! ## C3: invite gating on the login path -/

/-- C3 counterexample: a login with no invite id on an invite-required tenant
is rejected by `throw new Error(...)` — a plain error that the fetch boundary
maps to a generic 500, not a 401 authorization error. -/
theorem claim_C3_counterexample :
    (IndexTs.getOrCreateUser { users := [], invites := [] }
      { registerOnInvite := true, inviteID := none, identifier := "i@x.com",
        userData := [], provider := "password", freshId := "u1",
        createdAt := "t0", now := 0 })
      = (Except.error AuthErr.missingInviteId,
         { users := [], invites := [] }) ∧
    AuthErr.missingInviteId.isRequestError = false ∧
    AuthErr.missingInviteId.responseStatus = 500 := by
  exact ⟨rfl, rfl, rfl⟩

/-- Once its invite link is deleted, validating the same invite id fails as
not-found. -/
theorem ensureInviteLink_after_remove (invites : List InviteRow) (iid : String)
    (now : Nat) :
    (ensureInviteLinkIsValid (removeInviteLinkById invites iid) iid now).1
      = Except.error InviteErr.notFound := by
  have hnone : (removeInviteLinkById invites iid).find? (fun r => r.id == iid)
      = none := by
    rw [List.find?_eq_none]
    intro x hx
    have hmem := (List.mem_filter.mp hx).2
    simp only [bne_iff_ne, ne_eq] at hmem
    simp [hmem]
  simp [ensureInviteLinkIsValid, hnone]

/-- C3 amended: on an invite-required tenant with no existing user for the
identifier, a login with no invite id at all is rejected with a plain error
(surfaced as a generic 500, not an authorization error) and changes nothing;
a login with an unknown invite id is rejected with a 401 authorization error
and changes nothing; a login with an expired invite id is rejected with a 401
authorization error, inserts no user row, and deletes the expired link; and a
login with a present, unexpired invite id inserts the user and deletes the
invite link, so a subsequent validation of the same invite id fails as
not-found. -/
theorem claim_C3_amended (st : TenantState)
    (identifier userData_provider freshId createdAt : String) (userData : Doc)
    (now : Nat)
    (hnouser : userExists st.users identifier = false)
    (iidMissing : String)
    (hmiss : st.invites.find? (fun r => r.id == iidMissing) = none)
    (iidExp : String) (rowExp : InviteRow) (texp : Nat)
    (hexpfind : st.invites.find? (fun r => r.id == iidExp) = some rowExp)
    (hexp : rowExp.expiresAt = some texp) (hlt : texp < now)
    (iidOk : String) (rowOk : InviteRow)
    (hokfind : st.invites.find? (fun r => r.id == iidOk) = some rowOk)
    (hok : ∀ t, rowOk.expiresAt = some t → ¬ t < now) :
    (IndexTs.getOrCreateUser st
      { registerOnInvite := true, inviteID := none, identifier := identifier,
        userData := userData, provider := userData_provider,
        freshId := freshId, createdAt := createdAt, now := now }
      = (Except.error AuthErr.missingInviteId, st) ∧
      AuthErr.missingInviteId.responseStatus = 500) ∧
    (IndexTs.getOrCreateUser st
      { registerOnInvite := true, inviteID := some iidMissing,
        identifier := identifier, userData := userData,
        provider := userData_provider, freshId := freshId,
        createdAt := createdAt, now := now }
      = (Except.error (AuthErr.invalidInvite InviteErr.notFound), st) ∧
      (AuthErr.invalidInvite InviteErr.notFound).responseStatus = 401) ∧
    (IndexTs.getOrCreateUser st
      { registerOnInvite := true, inviteID := some iidExp,
        identifier := identifier, userData := userData,
        provider := userData_provider, freshId := freshId,
        createdAt := createdAt, now := now }
      = (Except.error (AuthErr.invalidInvite InviteErr.expired),
         { st with invites := removeInviteLinkById st.invites iidExp }) ∧
      (AuthErr.invalidInvite InviteErr.expired).responseStatus = 401) ∧
    (∃ st4,
      IndexTs.getOrCreateUser st
        { registerOnInvite := true, inviteID := some iidOk,
          identifier := identifier, userData := userData,
          provider := userData_provider, freshId := freshId,
          createdAt := createdAt, now := now }
        = (Except.ok freshId, st4) ∧
      (∃ row ∈ st4.users, row.identifier = identifier ∧ row.id = freshId ∧
        row.data = dataToStore userData userData_provider) ∧
      st4.invites = removeInviteLinkById st.invites iidOk ∧
      (ensureInviteLinkIsValid st4.invites iidOk now).1
        = Except.error InviteErr.notFound) := by
  have hfindnone : st.users.find? (fun r => r.identifier == identifier)
      = none := by
    rw [userExists] at hnouser
    exact Option.not_isSome_iff_eq_none.mp (by simp [hnouser])
  refine ⟨⟨?_, rfl⟩, ⟨?_, rfl⟩, ⟨?_, rfl⟩, ?_⟩
  · simp [IndexTs.getOrCreateUser]
  · have hval : ensureInviteLinkIsValid st.invites iidMissing now
        = (Except.error InviteErr.notFound, st.invites) := by
      simp [ensureInviteLinkIsValid, hmiss]
    simp [IndexTs.getOrCreateUser, hval]
  · have hval : ensureInviteLinkIsValid st.invites iidExp now
        = (Except.error InviteErr.expired,
           removeInviteLinkById st.invites iidExp) := by
      simp [ensureInviteLinkIsValid, hexpfind, hexp, hlt]
    simp [IndexTs.getOrCreateUser, hval]
  · have hval : ensureInviteLinkIsValid st.invites iidOk now
        = (Except.ok (), st.invites) := by
      simp only [ensureInviteLinkIsValid, hokfind]
      cases he : rowOk.expiresAt with
      | none => rfl
      | some t => simp [hok t he]
    refine ⟨⟨st.users ++
        [⟨freshId, identifier, dataToStore userData userData_provider,
          none, none, createdAt⟩],
        removeInviteLinkById st.invites iidOk⟩, ?_, ?_, rfl, ?_⟩
    · simp [IndexTs.getOrCreateUser, hval, upsertUserRow, hfindnone]
    · exact ⟨⟨freshId, identifier, dataToStore userData userData_provider,
        none, none, createdAt⟩, by simp, rfl, rfl, rfl⟩
    · exact ensureInviteLink_after_remove st.invites iidOk now

/-- C3 amended witness. -/
theorem claim_C3_amended_witness :
    userExists ([] : List UserRow) "i@x.com" = false ∧
    (∃ st4,
      IndexTs.getOrCreateUser
        { users := [],
          invites := [⟨"good", "acme", some 100⟩, ⟨"exp", "acme", some 5⟩] }
        { registerOnInvite := true, inviteID := some "good",
          identifier := "i@x.com", userData := [], provider := "password",
          freshId := "u1", createdAt := "t0", now := 50 }
        = (Except.ok "u1", st4) ∧
      (∃ row ∈ st4.users, row.identifier = "i@x.com" ∧ row.id = "u1" ∧
        row.data = dataToStore [] "password") ∧
      st4.invites = removeInviteLinkById
        [⟨"good", "acme", some 100⟩, ⟨"exp", "acme", some 5⟩] "good" ∧
      (ensureInviteLinkIsValid st4.invites "good" 50).1
        = Except.error InviteErr.notFound) := by
  have h := claim_C3_amended
    { users := [],
      invites := [⟨"good", "acme", some 100⟩, ⟨"exp", "acme", some 5⟩] }
    "i@x.com" "password" "u1" "t0" [] 50
    (by decide)
    "missing" (by decide)
    "exp" ⟨"exp", "acme", some 5⟩ 5 (by decide) rfl (by decide)
    "good" ⟨"good", "acme", some 100⟩ (by decide)
    (fun t ht => by simp at ht; omega)
  exact ⟨by decide, h.2.2.2⟩

/-! ## C8: request-context precedence -/

/-- The tenant-id part supplied by the `client_id` query parameter (the first
`::` segment). -/
def queryPart (req : RequestInput) (i : Nat) : Option String :=
  (req.queryClientId.map (fun s => jsSplit s "::")).bind (fun l => l[i]?)

/-- The tenant-id part supplied by the form body's `client_id` field — the
form is read only for POST requests. -/
def formPart (req : RequestInput) (i : Nat) : Option String :=
  (if req.method == "POST" then req.formClientId.map (fun s => jsSplit s "::")
   else none).bind (fun l => l[i]?)

/-- C8: both the resolved tenant identifier and the copy-template identifier
follow the fixed precedence query parameter → form-body field (POST only) →
cookie, under JS truthiness (absent and empty values fall through), and each
field is `none` when no source supplies a non-empty value; for a non-POST
request the form body is never consulted. -/
theorem claim_C8 (req : RequestInput) :
    ((jsTruthyStr (queryPart req 0) = true →
       (requestToParams req).clientID = queryPart req 0) ∧
     (jsTruthyStr (queryPart req 0) = false →
       jsTruthyStr (formPart req 0) = true →
       (requestToParams req).clientID = formPart req 0) ∧
     (jsTruthyStr (queryPart req 0) = false →
       jsTruthyStr (formPart req 0) = false →
       jsTruthyStr (cookieGet (getCookiesFromRequest req.cookieHeader)
         COOKIE_NAME) = true →
       (requestToParams req).clientID
         = cookieGet (getCookiesFromRequest req.cookieHeader) COOKIE_NAME) ∧
     (jsTruthyStr (queryPart req 0) = false →
       jsTruthyStr (formPart req 0) = false →
       jsTruthyStr (cookieGet (getCookiesFromRequest req.cookieHeader)
         COOKIE_NAME) = false →
       (requestToParams req).clientID = none)) ∧
    ((jsTruthyStr (queryPart req 1) = true →
       (requestToParams req).copyID = queryPart req 1) ∧
     (jsTruthyStr (queryPart req 1) = false →
       jsTruthyStr (formPart req 1) = true →
       (requestToParams req).copyID = formPart req 1) ∧
     (jsTruthyStr (queryPart req 1) = false →
       jsTruthyStr (formPart req 1) = false →
       jsTruthyStr (cookieGet (getCookiesFromRequest req.cookieHeader)
         COOKIE_COPY_TEMPLATE_ID) = true →
       (requestToParams req).copyID
         = cookieGet (getCookiesFromRequest req.cookieHeader)
             COOKIE_COPY_TEMPLATE_ID) ∧
     (jsTruthyStr (queryPart req 1) = false →
       jsTruthyStr (formPart req 1) = false →
       jsTruthyStr (cookieGet (getCookiesFromRequest req.cookieHeader)
         COOKIE_COPY_TEMPLATE_ID) = false →
       (requestToParams req).copyID = none)) ∧
    (∀ v, req.method ≠ "POST" →
      requestToParams req = requestToParams { req with formClientId := v }) := by
  refine ⟨⟨?_, ?_, ?_, ?_⟩, ⟨?_, ?_, ?_, ?_⟩, ?_⟩
  · intro hq
    simp only [requestToParams, jsOrStr, queryPart, formPart] at *
    rw [hq]
    simp
  · intro hq hf
    simp only [requestToParams, jsOrStr, queryPart, formPart] at *
    rw [hq, hf]
    simp
  · intro hq hf hc
    simp only [requestToParams, jsOrStr, queryPart, formPart] at *
    rw [hq, hf, hc]
    simp
  · intro hq hf hc
    simp only [requestToParams, jsOrStr, queryPart, formPart] at *
    rw [hq, hf, hc]
    simp
  · intro hq
    simp only [requestToParams, jsOrStr, queryPart, formPart] at *
    rw [hq]
    simp
  · intro hq hf
    simp only [requestToParams, jsOrStr, queryPart, formPart] at *
    rw [hq, hf]
    simp
  · intro hq hf hc
    simp only [requestToParams, jsOrStr, queryPart, formPart] at *
    rw [hq, hf, hc]
    simp
  · intro hq hf hc
    simp only [requestToParams, jsOrStr, queryPart, formPart] at *
    rw [hq, hf, hc]
    simp
  · intro v hm
    have hm' : (req.method == "POST") = false := by simp [hm]
    simp [requestToParams, hm']

/-- C8 witness: the query parameter overrides both the form field and the
cookie, and the composite `a::b` form feeds both identifiers. -/
theorem claim_C8_witness :
    jsTruthyStr (queryPart
      { method := "POST", queryClientId := some "acme::tpl1",
        queryInviteId := none, formClientId := some "other::tpl2",
        cookieHeader := some "oauth_client_id=ck; oauth_copy_template_id=cc" }
      0) = true ∧
    (requestToParams
      { method := "POST", queryClientId := some "acme::tpl1",
        queryInviteId := none, formClientId := some "other::tpl2",
        cookieHeader := some "oauth_client_id=ck; oauth_copy_template_id=cc" }).clientID
      = queryPart
        { method := "POST", queryClientId := some "acme::tpl1",
          queryInviteId := none, formClientId := some "other::tpl2",
          cookieHeader := some "oauth_client_id=ck; oauth_copy_template_id=cc" }
        0 ∧
    (requestToParams
      { method := "POST", queryClientId := some "acme::tpl1",
        queryInviteId := none, formClientId := some "other::tpl2",
        cookieHeader := some "oauth_client_id=ck; oauth_copy_template_id=cc" }).clientID
      = some "acme" := by
  refine ⟨by decide, ?_, by decide⟩
  exact (claim_C8
    { method := "POST", queryClientId := some "acme::tpl1",
      queryInviteId := none, formClientId := some "other::tpl2",
      cookieHeader := some "oauth_client_id=ck; oauth_copy_template_id=cc" }).1.1
    (by decide)

end OpenAuthster
